import Mathlib

/-!
One-time-secret service: the handlers of `internal/controller/api/secret.go`.

The five gin handlers (`createOneTimeSecret`, `createSecret`, `getOneTimeSecret`,
`getSecret`, `listSecrets`) are embedded as pure functions.  A handler receives the
store it talks to, the outcome of each external call it makes (request binding, store
faults, random strings, the environment variable) and returns what it did: the
`ctx.JSON` writes in order, the store calls in order, whether it ended in `panic`, and
the store afterwards.
-/

namespace OneTimeSecret

/-! ## Data model -/

/-- Modelled from the spec: the `db.Secret` row type, declared in package `sqlc` outside
`secret.go`.  The fields are the ones the handlers read or write:
`ID`, `Content`, `Creator`, `Hashpassword`, `Isview`, `Token`. -/
structure Secret where
  ID : Int
  Content : String
  Creator : String
  Hashpassword : String
  Isview : Bool
  Token : String
  deriving DecidableEq, Repr

/-- Modelled from the spec: errors a store call can return.  `ErrNoRows` is
`sql.ErrNoRows`; every other failure is `other msg`. -/
inductive StoreErr where
  | ErrNoRows
  | other (msg : String)
  deriving DecidableEq, Repr

/-- Text of an error, `err.Error()`. -/
def StoreErr.Error : StoreErr → String
  | .ErrNoRows => "sql: no rows in result set"
  | .other msg => msg

/-- Modelled from the spec: `db.CreateSecretParams`. -/
structure CreateSecretParams where
  Content : String
  Creator : String
  Hashpassword : String
  Token : String
  deriving DecidableEq, Repr

/-- Modelled from the spec: `db.UpdateSecretParams`. -/
structure UpdateSecretParams where
  ID : Int
  Isview : Bool
  deriving DecidableEq, Repr

/-- Modelled from the spec: `db.ListSecretsParams`. -/
structure ListSecretsParams where
  Creator : String
  Limit : Int
  Offset : Int
  deriving DecidableEq, Repr

/-- Modelled from the spec: the Secret Store (`server.store`, an interface declared and
implemented outside `secret.go`).  Rows in insertion order and the next identifier the
store will assign. -/
structure Store where
  rows : List Secret
  nextID : Int
  deriving DecidableEq, Repr

/-- Modelled from the spec: `store.GetSecret` (`getById(id) → record | NotFoundError |
StorageError`).  `fault` is a storage failure injected into this call. -/
def Store.GetSecret (st : Store) (fault : Option StoreErr) (id : Int) :
    Except StoreErr Secret :=
  match fault with
  | some e => .error e
  | none =>
    match st.rows.find? (fun s => s.ID == id) with
    | some s => .ok s
    | none => .error .ErrNoRows

/-- Rows after the viewed flag of the rows with identifier `id` has been set to `v`. -/
def setView (id : Int) (v : Bool) (rows : List Secret) : List Secret :=
  rows.map (fun s => if s.ID == id then { s with Isview := v } else s)

/-- Modelled from the spec: `store.UpdateSecret` (`updateViewedFlag(id) → record |
StorageError`).  A failed call leaves the rows as they were. -/
def Store.UpdateSecret (st : Store) (fault : Option StoreErr) (args : UpdateSecretParams) :
    Except StoreErr (Secret × Store) :=
  match fault with
  | some e => .error e
  | none =>
    match st.rows.find? (fun s => s.ID == args.ID) with
    | some s =>
      .ok ({ s with Isview := args.Isview },
           { st with rows := setView args.ID args.Isview st.rows })
    | none => .error .ErrNoRows

/-- Modelled from the spec: `store.CreateSecret` (`create(record) → id | StorageError`).
The store assigns the identifier; a new row is unviewed.  A failed call writes nothing. -/
def Store.CreateSecret (st : Store) (fault : Option StoreErr) (args : CreateSecretParams) :
    Except StoreErr (Secret × Store) :=
  match fault with
  | some e => .error e
  | none =>
    let s : Secret :=
      { ID := st.nextID, Content := args.Content, Creator := args.Creator,
        Hashpassword := args.Hashpassword, Isview := false, Token := args.Token }
    .ok (s, { rows := st.rows ++ [s], nextID := st.nextID + 1 })

/-- A value handed to `ctx.JSON`. -/
inductive Body where
  /-- Result of `errorResponse(err)`: the object with the single key `error`. -/
  | errorResponse (msg : String)
  /-- A Go string, serialised as a JSON string. -/
  | str (s : String)
  /-- The object with the single key `url`. -/
  | url (u : String)
  /-- A list of rows. -/
  | secrets (l : List Secret)
  deriving DecidableEq, Repr

/-- One call `ctx.JSON(status, body)`. -/
structure Write where
  status : Nat
  body : Body
  deriving DecidableEq, Repr

/-- One call made to the store. -/
inductive StoreCall where
  | get (id : Int)
  | update (args : UpdateSecretParams)
  | create (args : CreateSecretParams)
  | list (arg : ListSecretsParams)
  deriving DecidableEq, Repr

/-- Everything a handler run did, in order: the `ctx.JSON` writes, the store calls, and
the error it panicked with if it ended in `panic(err)`. -/
structure Outcome where
  writes : List Write
  calls : List StoreCall
  panicked : Option StoreErr
  deriving DecidableEq, Repr

def StatusOK : Nat := 200
def StatusBadRequest : Nat := 400
def StatusUnauthorized : Nat := 401
def StatusNotFound : Nat := 404
def StatusUnprocessableEntity : Nat := 422
def StatusInternalServerError : Nat := 500

/-- The sentinel both retrieval handlers answer for a secret that was viewed before. -/
def alreadyView : String := "You have already view"

/-- The content of `s` is among the writes of `o`. -/
def Outcome.writesContent (o : Outcome) (s : Secret) : Prop :=
  Body.str s.Content ∈ o.writes.map Write.body

instance (o : Outcome) (s : Secret) : Decidable (o.writesContent s) := by
  unfold Outcome.writesContent; infer_instance

/-- The already-viewed sentinel is among the writes of `o`. -/
def Outcome.writesSentinel (o : Outcome) : Prop :=
  Body.str alreadyView ∈ o.writes.map Write.body

instance (o : Outcome) : Decidable o.writesSentinel := by
  unfold Outcome.writesSentinel; infer_instance

/-- The handler issued an `UpdateSecret` call. -/
def Outcome.issuesUpdate (o : Outcome) : Prop :=
  ∃ a, StoreCall.update a ∈ o.calls

/-! ## Request binding -/

/-- The request type `getSecretRequest`. -/
structure getSecretRequest where
  ID : Int
  Isview : Bool
  deriving DecidableEq, Repr

/-- The binding `ctx.ShouldBindUri(&req)` for `getSecretRequest`: the `id` path segment
(`none` when it is not the text of an integer) must be an `int64` that satisfies
`required,min=1`. -/
def ShouldBindUri (id : Option Int) : Except String getSecretRequest :=
  match id with
  | none => .error "invalid syntax"
  | some n =>
    if n < -(2 ^ 63) ∨ 2 ^ 63 ≤ n then .error "value out of range"
    else if n = 0 then .error "Field validation for ID failed on the required tag"
    else if n < 1 then .error "Field validation for ID failed on the min tag"
    else .ok { ID := n, Isview := false }

/-! ## Retrieval handlers -/

/-- The handler `getOneTimeSecret` (lines 105-137).  `id` is the path segment, `fGet` and
`fUpd` the storage failures injected into the `GetSecret` and `UpdateSecret` calls. -/
def getOneTimeSecret (st : Store) (fGet fUpd : Option StoreErr) (id : Option Int) :
    Outcome × Store :=
  match ShouldBindUri id with
  | .error e =>
    ({ writes := [⟨StatusBadRequest, .errorResponse e⟩], calls := [], panicked := none }, st)
  | .ok req =>
    match st.GetSecret fGet req.ID with
    | .error err =>
      if err = StoreErr.ErrNoRows then
        ({ writes := [⟨StatusNotFound, .errorResponse err.Error⟩],
           calls := [.get req.ID], panicked := none }, st)
      else
        ({ writes := [⟨StatusInternalServerError, .errorResponse err.Error⟩],
           calls := [.get req.ID], panicked := none }, st)
    | .ok secret =>
      if !secret.Isview then
        let args : UpdateSecretParams := { ID := req.ID, Isview := true }
        match st.UpdateSecret fUpd args with
        | .error err =>
          ({ writes := [⟨StatusOK, .str secret.Content⟩,
                        ⟨StatusInternalServerError, .errorResponse err.Error⟩],
             calls := [.get req.ID, .update args], panicked := none }, st)
        | .ok (_, st2) =>
          ({ writes := [⟨StatusOK, .str secret.Content⟩],
             calls := [.get req.ID, .update args], panicked := none }, st2)
      else
        ({ writes := [⟨StatusOK, .str alreadyView⟩],
           calls := [.get req.ID], panicked := none }, st)

/-- The authenticated identity, `token.Payload`, as far as the handlers read it. -/
structure Payload where
  Username : String
  deriving DecidableEq, Repr

/-- The handler `getSecret` (lines 156-193).  `authPayload` is the value the
authentication middleware left under `authorizationPayloadKey`. -/
def getSecret (st : Store) (fGet fUpd : Option StoreErr) (authPayload : Payload)
    (id : Option Int) : Outcome × Store :=
  match ShouldBindUri id with
  | .error e =>
    ({ writes := [⟨StatusBadRequest, .errorResponse e⟩], calls := [], panicked := none }, st)
  | .ok req =>
    match st.GetSecret fGet req.ID with
    | .error err =>
      if err = StoreErr.ErrNoRows then
        ({ writes := [⟨StatusNotFound, .errorResponse err.Error⟩],
           calls := [.get req.ID], panicked := none }, st)
      else
        ({ writes := [⟨StatusInternalServerError, .errorResponse err.Error⟩],
           calls := [.get req.ID], panicked := none }, st)
    | .ok secret =>
      if secret.Creator ≠ authPayload.Username then
        ({ writes := [⟨StatusUnauthorized,
                       .errorResponse "account doesn\x27t belong to the authenticated user"⟩],
           calls := [.get req.ID], panicked := none }, st)
      else if !secret.Isview then
        let args : UpdateSecretParams := { ID := req.ID, Isview := true }
        match st.UpdateSecret fUpd args with
        | .error err =>
          ({ writes := [⟨StatusOK, .str secret.Content⟩],
             calls := [.get req.ID, .update args], panicked := some err }, st)
        | .ok (_, st2) =>
          ({ writes := [⟨StatusOK, .str secret.Content⟩],
             calls := [.get req.ID, .update args], panicked := none }, st2)
      else
        ({ writes := [⟨StatusOK, .str alreadyView⟩],
           calls := [.get req.ID], panicked := none }, st)

/-- A retrieval call for one identifier: the anonymous handler or the authenticated one,
with the storage failures injected into its `GetSecret` and `UpdateSecret` calls. -/
inductive Retrieval where
  | anon (fGet fUpd : Option StoreErr)
  | owner (fGet fUpd : Option StoreErr) (authPayload : Payload)
  deriving DecidableEq, Repr

/-- Run one retrieval call for the path segment `id`. -/
def retrieve (st : Store) (id : Option Int) : Retrieval → Outcome × Store
  | .anon fGet fUpd => getOneTimeSecret st fGet fUpd id
  | .owner fGet fUpd authPayload => getSecret st fGet fUpd authPayload id

/-- Run retrieval calls for the path segment `id` one after another; a handler that
panicked is recovered by the server and the next request is served.  Returns the
outcomes in call order and the final store. -/
def runRetrievals (st : Store) (id : Option Int) : List Retrieval → List Outcome × Store
  | [] => ([], st)
  | r :: rs =>
    let (o, st1) := retrieve st id r
    let (os, st2) := runRetrievals st1 id rs
    (o :: os, st2)

/-- The store after `n` fault-free `getOneTimeSecret` calls for `id` in a row. -/
def storeAfter (st : Store) (id : Option Int) : Nat → Store
  | 0 => st
  | n + 1 => (getOneTimeSecret (storeAfter st id n) none none id).2

/-! ## Concurrent retrievals: `getOneTimeSecret` one store call at a time -/

/-- Where a running `getOneTimeSecret` request stands: before its `GetSecret` call
(line 111), between the content write (line 122) and its `UpdateSecret` call (line 127),
or returned. -/
inductive Pc where
  | start
  | beforeUpdate (sofar : Outcome) (args : UpdateSecretParams)
  | returned (o : Outcome)
  deriving DecidableEq, Repr

/-- One step of a fault-free `getOneTimeSecret` request: everything up to and including
its next store call. -/
def stepOneTimeSecret (st : Store) (id : Option Int) : Pc → Pc × Store
  | .start =>
    match ShouldBindUri id with
    | .error e =>
      (.returned { writes := [⟨StatusBadRequest, .errorResponse e⟩], calls := [],
                   panicked := none }, st)
    | .ok req =>
      match st.GetSecret none req.ID with
      | .error err =>
        if err = StoreErr.ErrNoRows then
          (.returned { writes := [⟨StatusNotFound, .errorResponse err.Error⟩],
                       calls := [.get req.ID], panicked := none }, st)
        else
          (.returned { writes := [⟨StatusInternalServerError, .errorResponse err.Error⟩],
                       calls := [.get req.ID], panicked := none }, st)
      | .ok secret =>
        if !secret.Isview then
          (.beforeUpdate { writes := [⟨StatusOK, .str secret.Content⟩],
                           calls := [.get req.ID], panicked := none }
            { ID := req.ID, Isview := true }, st)
        else
          (.returned { writes := [⟨StatusOK, .str alreadyView⟩],
                       calls := [.get req.ID], panicked := none }, st)
  | .beforeUpdate sofar args =>
    match st.UpdateSecret none args with
    | .error err =>
      (.returned { sofar with
          writes := sofar.writes ++ [⟨StatusInternalServerError, .errorResponse err.Error⟩],
          calls := sofar.calls ++ [.update args] }, st)
    | .ok (_, st2) =>
      (.returned { sofar with calls := sofar.calls ++ [.update args] }, st2)
  | .returned o => (.returned o, st)

/-- Run the requests `ts` (all for the path segment `id`) under the schedule `sched`:
each entry names the request that performs its next step. -/
def runSchedule (id : Option Int) : List Nat → List Pc × Store → List Pc × Store
  | [], cfg => cfg
  | i :: rest, (ts, st) =>
    match ts.get? i with
    | none => runSchedule id rest (ts, st)
    | some pc =>
      let (pc2, st2) := stepOneTimeSecret st id pc
      runSchedule id rest (ts.set i pc2, st2)

/-- The request has returned and the content of `s` is among its writes. -/
def Pc.observesContent (s : Secret) : Pc → Bool
  | .returned o => decide (o.writesContent s)
  | _ => false

/-- The request has returned and the sentinel is among its writes. -/
def Pc.observesAlreadyViewed : Pc → Bool
  | .returned o => decide o.writesSentinel
  | _ => false

/-! ## Creation handlers -/

/-- The request type `createSecretRequest`. -/
structure createSecretRequest where
  Content : String
  Hashpassword : String
  deriving DecidableEq, Repr

/-- The binding `ctx.ShouldBindJSON(&req)` for `createSecretRequest`: the body (`none`
when it is not a JSON object of that shape) must carry a non-empty `content`. -/
def ShouldBindJSON (body : Option createSecretRequest) : Except String createSecretRequest :=
  match body with
  | none => .error "invalid request body"
  | some r =>
    if r.Content = "" then .error "Field validation for Content failed on the required tag"
    else .ok r

/-- The collaborators of the creation handlers that live outside `secret.go`, as the
values they return during one run: `util.HashPassword` (a hash and an error),
`util.GetToken()`, `util.RandomString(n)` and `os.Getenv("BASE_URL")`. -/
structure Env where
  HashPassword : String → String × Option String
  GetToken : String
  RandomString : Nat → String
  BASE_URL : String

/-- The `CreateSecretParams` that `createOneTimeSecret` builds (lines 30-42). -/
def oneTimeArgs (env : Env) (req : createSecretRequest) : CreateSecretParams :=
  let hash := (env.HashPassword req.Hashpassword).1
  let token := env.GetToken
  let args : CreateSecretParams :=
    { Content := req.Content, Creator := "", Hashpassword := req.Hashpassword, Token := token }
  let length := args.Hashpassword.utf8ByteSize
  if length = 0 then { args with Hashpassword := "" } else { args with Hashpassword := hash }

/-- The handler `createOneTimeSecret` (lines 24-60).  `Cont` is the package variable
`Cont` before the call; the third component of the result is `Cont` after it. -/
def createOneTimeSecret (env : Env) (st : Store) (Cont : String) (fCreate : Option StoreErr)
    (body : Option createSecretRequest) : Outcome × Store × String :=
  match ShouldBindJSON body with
  | .error e =>
    ({ writes := [⟨StatusBadRequest, .errorResponse e⟩], calls := [], panicked := none },
     st, Cont)
  | .ok req =>
    let args := oneTimeArgs env req
    match st.CreateSecret fCreate args with
    | .error err =>
      ({ writes := [⟨StatusInternalServerError, .errorResponse err.Error⟩],
         calls := [.create args], panicked := none }, st, Cont)
    | .ok (secret, st2) =>
      let Cont2 := env.RandomString 60
      let baseURL := env.BASE_URL
      if baseURL = "" then
        ({ writes := [⟨StatusUnprocessableEntity, .errorResponse "required baseURL"⟩],
           calls := [.create args], panicked := none }, st2, Cont2)
      else
        let url := baseURL ++ "/one-time-secret/" ++ toString secret.ID ++ "/" ++ Cont2
        ({ writes := [⟨StatusOK, .url url⟩], calls := [.create args], panicked := none },
         st2, Cont2)

/-- The `CreateSecretParams` that `createSecret` builds (lines 68-80). -/
def ownedArgs (env : Env) (authPayload : Payload) (req : createSecretRequest) :
    CreateSecretParams :=
  let hash := (env.HashPassword req.Hashpassword).1
  let args : CreateSecretParams :=
    { Content := req.Content, Creator := authPayload.Username,
      Hashpassword := req.Hashpassword, Token := "" }
  let length := args.Hashpassword.utf8ByteSize
  if length = 0 then { args with Hashpassword := "" } else { args with Hashpassword := hash }

/-- The handler `createSecret` (lines 62-91). -/
def createSecret (env : Env) (st : Store) (Cont : String) (fCreate : Option StoreErr)
    (authPayload : Payload) (body : Option createSecretRequest) : Outcome × Store × String :=
  match ShouldBindJSON body with
  | .error e =>
    ({ writes := [⟨StatusBadRequest, .errorResponse e⟩], calls := [], panicked := none },
     st, Cont)
  | .ok req =>
    let args := ownedArgs env authPayload req
    match st.CreateSecret fCreate args with
    | .error err =>
      ({ writes := [⟨StatusInternalServerError, .errorResponse err.Error⟩],
         calls := [.create args], panicked := none }, st, Cont)
    | .ok (secret, st2) =>
      let Cont2 := env.RandomString 60
      let url := "localhost:3000/secrets/" ++ toString secret.ID ++ "/" ++ Cont2
      ({ writes := [⟨StatusOK, .str url⟩], calls := [.create args], panicked := none },
       st2, Cont2)

/-! ## Listing handler -/

/-- An unviewed secret owned by `alice`. -/
def sampleSecret : Secret :=
  { ID := 1, Content := "s3cr3t", Creator := "alice", Hashpassword := "", Isview := false,
    Token := "tok" }

/-- A store holding `sampleSecret` only. -/
def sampleStore : Store := { rows := [sampleSecret], nextID := 2 }

/-- The sample secret with another creator, credential and token. -/
def otherSecret : Secret :=
  { sampleSecret with Creator := "bob", Hashpassword := "$2a$10$pw", Token := "zzz" }

/-- A store holding `otherSecret` only. -/
def otherStore : Store := { rows := [otherSecret], nextID := 7 }

/-- An unviewed secret whose content is the text of the already-viewed sentinel. -/
def sentinelSecret : Secret :=
  { ID := 1, Content := "You have already view", Creator := "", Hashpassword := "",
    Isview := false, Token := "tok" }

/-- A store holding `sentinelSecret` only. -/
def sentinelStore : Store := { rows := [sentinelSecret], nextID := 2 }

/-- A passphrase of 73 bytes. -/
def longPassphrase : String := String.mk (List.replicate 73 'a')

/-- A run of the collaborators in which `util.HashPassword` returns an empty hash and
an error for a passphrase longer than 72 bytes, and a hash and no error otherwise. -/
def failingEnv : Env :=
  { HashPassword := fun p =>
      if 72 < p.utf8ByteSize then ("", some "password length exceeds 72 bytes")
      else ("$2a$10$" ++ p, none),
    GetToken := "TOKENTOKEN",
    RandomString := fun _ => "RANDOMRANDOM",
    BASE_URL := "http://h" }

/-- An empty store. -/
def emptyStore : Store := { rows := [], nextID := 1 }

/-- A run of the collaborators in which the token and the random string differ and no
base URL is configured when `base` is empty. -/
def sampleEnv (base : String) : Env :=
  { HashPassword := fun p => ("$2a$10$" ++ p, none),
    GetToken := "TOKENTOKEN",
    RandomString := fun _ => "RANDOMRANDOM",
    BASE_URL := base }

/-! ## Store lemmas -/

theorem find_setView (id : Int) (v : Bool) (rows : List Secret) (s : Secret)
    (h : rows.find? (fun r => r.ID == id) = some s) :
    (setView id v rows).find? (fun r => r.ID == id) = some { s with Isview := v } := by
  induction rows with
  | nil => simp at h
  | cons r rs ih =>
    by_cases hr : r.ID = id
    · have hp : (r.ID == id) = true := by simp [hr]
      rw [List.find?_cons, hp] at h
      have hs : r = s := by simpa using h
      subst hs
      simp [setView, List.find?_cons, hr]
    · have hp : (r.ID == id) = false := by simp [hr]
      rw [List.find?_cons, hp] at h
      have ih2 := ih h
      unfold setView at ih2 ⊢
      rw [List.map_cons, List.find?_cons]
      simp only [hp, Bool.false_eq_true, if_false]
      exact ih2

theorem GetSecret_ok_iff (st : Store) (id : Int) (s : Secret) :
    st.GetSecret none id = .ok s ↔ st.rows.find? (fun r => r.ID == id) = some s := by
  unfold Store.GetSecret
  cases h : st.rows.find? (fun r => r.ID == id) <;> simp

theorem GetSecret_ok_ID (st : Store) (id : Int) (s : Secret)
    (h : st.GetSecret none id = .ok s) : s.ID = id := by
  rw [GetSecret_ok_iff] at h
  have := List.find?_some h
  simpa using this

theorem ShouldBindUri_ok (n : Int) (h1 : 1 ≤ n) (h2 : n < 2 ^ 63) :
    ShouldBindUri (some n) = .ok { ID := n, Isview := false } := by
  unfold ShouldBindUri
  have a : ¬ (n < -(2 ^ 63) ∨ 2 ^ 63 ≤ n) := by omega
  have b : ¬ n = 0 := by omega
  have c : ¬ n < 1 := by omega
  show (if n < -(2 ^ 63) ∨ 2 ^ 63 ≤ n then _ else _) = _
  rw [if_neg a, if_neg b, if_neg c]

/-- A fault-free anonymous retrieval of an unviewed stored secret: one content write, a
get and an update, and the rows with the flag set. -/
theorem getOneTimeSecret_unviewed (st : Store) (id : Int) (s : Secret)
    (h1 : 1 ≤ id) (h2 : id < 2 ^ 63)
    (hget : st.GetSecret none id = .ok s) (hview : s.Isview = false) :
    getOneTimeSecret st none none (some id) =
      ({ writes := [⟨StatusOK, .str s.Content⟩],
         calls := [.get id, .update { ID := id, Isview := true }], panicked := none },
       { st with rows := setView id true st.rows }) := by
  have hf := (GetSecret_ok_iff st id s).1 hget
  simp [getOneTimeSecret, ShouldBindUri_ok id h1 h2, hget, hview, Store.UpdateSecret, hf]

/-- A fault-free anonymous retrieval of a viewed stored secret: the sentinel, a get, no
update, the store as it was. -/
theorem getOneTimeSecret_viewed (st : Store) (id : Int) (s : Secret)
    (h1 : 1 ≤ id) (h2 : id < 2 ^ 63)
    (hget : st.GetSecret none id = .ok s) (hview : s.Isview = true) :
    getOneTimeSecret st none none (some id) =
      ({ writes := [⟨StatusOK, .str alreadyView⟩], calls := [.get id], panicked := none },
       st) := by
  simp [getOneTimeSecret, ShouldBindUri_ok id h1 h2, hget, hview]

theorem GetSecret_setView (st : Store) (id : Int) (v : Bool) (s : Secret)
    (hget : st.GetSecret none id = .ok s) :
    Store.GetSecret { st with rows := setView id v st.rows } none id =
      .ok { s with Isview := v } := by
  rw [GetSecret_ok_iff] at hget ⊢
  exact find_setView id v st.rows s hget

/-- After the first fault-free anonymous retrieval of an unviewed secret, any number of
further ones leave the store as the first one left it. -/
theorem storeAfter_succ (st : Store) (id : Int) (s : Secret)
    (h1 : 1 ≤ id) (h2 : id < 2 ^ 63)
    (hget : st.GetSecret none id = .ok s) (hview : s.Isview = false) (n : Nat) :
    storeAfter st (some id) (n + 1) = { st with rows := setView id true st.rows } := by
  induction n with
  | zero => simp [storeAfter, getOneTimeSecret_unviewed st id s h1 h2 hget hview]
  | succ k ih =>
    rw [storeAfter, ih]
    rw [getOneTimeSecret_viewed _ id { s with Isview := true } h1 h2
      (GetSecret_setView st id true s hget) rfl]

/-! ## C1: sequential anonymous retrieval is exactly-once -/

/-- C1 (as stated, refuted): it is not the case that for every stored unviewed secret no
later fault-free `getOneTimeSecret` call writes the content.  For the stored secret whose
content is the text "You have already view", the second call writes `200` with that very
string: lines 122 and 134 both hand a Go string to `ctx.JSON` with status `200`. -/
theorem C1_later_call_writes_content :
    ¬ (∀ (st : Store) (s : Secret), 1 ≤ s.ID → s.ID < 2 ^ 63 →
        st.GetSecret none s.ID = .ok s → s.Isview = false →
        ∀ n : Nat, 1 ≤ n →
          ¬ (getOneTimeSecret (storeAfter st (some s.ID) n) none none
              (some s.ID)).1.writesContent s) := by
  intro h
  exact h sentinelStore sentinelSecret (by decide) (by decide) rfl rfl 1 (by decide)
    (by decide)

/-- C1 (amended): for a stored secret `s` with `viewed = false` and fault-free store
calls, the first `getOneTimeSecret` call for its id writes exactly `200` with the content
and leaves `s` stored with `viewed = true`; every later call (the call after `n ≥ 1`
earlier ones) writes exactly `200` with the sentinel "You have already view", issues no
update, and `s` stays stored with `viewed = true`; a later call does not write the
content unless the content is the sentinel text itself. -/
theorem C1_anonymous_exactly_once (st : Store) (s : Secret)
    (h1 : 1 ≤ s.ID) (h2 : s.ID < 2 ^ 63)
    (hget : st.GetSecret none s.ID = .ok s) (hview : s.Isview = false) :
    ((getOneTimeSecret st none none (some s.ID)).1.writes = [⟨200, .str s.Content⟩] ∧
      (getOneTimeSecret st none none (some s.ID)).1.panicked = none ∧
      (getOneTimeSecret st none none (some s.ID)).2.GetSecret none s.ID =
        .ok { s with Isview := true }) ∧
    ∀ n : Nat, 1 ≤ n →
      (getOneTimeSecret (storeAfter st (some s.ID) n) none none (some s.ID)).1.writes =
          [⟨200, .str "You have already view"⟩] ∧
        (getOneTimeSecret (storeAfter st (some s.ID) n) none none (some s.ID)).1.calls =
          [.get s.ID] ∧
        (s.Content ≠ alreadyView →
          ¬ (getOneTimeSecret (storeAfter st (some s.ID) n) none none
              (some s.ID)).1.writesContent s) ∧
        (getOneTimeSecret (storeAfter st (some s.ID) n) none none (some s.ID)).2.GetSecret
          none s.ID = .ok { s with Isview := true } := by
  constructor
  · rw [getOneTimeSecret_unviewed st s.ID s h1 h2 hget hview]
    exact ⟨rfl, rfl, GetSecret_setView st s.ID true s hget⟩
  · intro n hn
    obtain ⟨k, rfl⟩ : ∃ k, n = k + 1 := ⟨n - 1, by omega⟩
    rw [storeAfter_succ st s.ID s h1 h2 hget hview k]
    have hg := GetSecret_setView st s.ID true s hget
    rw [getOneTimeSecret_viewed _ s.ID { s with Isview := true } h1 h2 hg rfl]
    refine ⟨rfl, rfl, ?_, hg⟩
    intro hne
    simp [Outcome.writesContent, hne]

/-- C1 (amended) at the sample store: the secret with id 1 is disclosed by the first call
only. -/
theorem C1_anonymous_exactly_once_witness :
    ((getOneTimeSecret sampleStore none none (some sampleSecret.ID)).1.writes =
        [⟨200, .str sampleSecret.Content⟩] ∧
      (getOneTimeSecret sampleStore none none (some sampleSecret.ID)).1.panicked = none ∧
      (getOneTimeSecret sampleStore none none (some sampleSecret.ID)).2.GetSecret none
        sampleSecret.ID = .ok { sampleSecret with Isview := true }) ∧
    ∀ n : Nat, 1 ≤ n →
      (getOneTimeSecret (storeAfter sampleStore (some sampleSecret.ID) n) none none
          (some sampleSecret.ID)).1.writes = [⟨200, .str "You have already view"⟩] ∧
        (getOneTimeSecret (storeAfter sampleStore (some sampleSecret.ID) n) none none
          (some sampleSecret.ID)).1.calls = [.get sampleSecret.ID] ∧
        (sampleSecret.Content ≠ alreadyView →
          ¬ (getOneTimeSecret (storeAfter sampleStore (some sampleSecret.ID) n) none none
              (some sampleSecret.ID)).1.writesContent sampleSecret) ∧
        (getOneTimeSecret (storeAfter sampleStore (some sampleSecret.ID) n) none none
          (some sampleSecret.ID)).2.GetSecret none sampleSecret.ID =
            .ok { sampleSecret with Isview := true } :=
  C1_anonymous_exactly_once sampleStore sampleSecret (by decide) (by decide) rfl rfl

/-! ## C2: ownership isolation -/

/-- C2: for a stored secret `s` with creator `A` and an authenticated identity `B ≠ A`,
`getSecret` writes neither the content nor the sentinel, issues no update, leaves the
store as it was and does not panic, whatever `viewed` is and whether or not the store
calls fail; and when the fetch succeeds the only write is `401 Unauthorized`. -/
theorem C2_ownership_isolation (st : Store) (s : Secret) (B : Payload)
    (fGet fUpd : Option StoreErr)
    (h1 : 1 ≤ s.ID) (h2 : s.ID < 2 ^ 63)
    (hget : st.GetSecret none s.ID = .ok s) (hne : s.Creator ≠ B.Username) :
    (fGet = none →
      (getSecret st fGet fUpd B (some s.ID)).1.writes =
        [⟨401, .errorResponse "account doesn\x27t belong to the authenticated user"⟩]) ∧
    (∀ w ∈ (getSecret st fGet fUpd B (some s.ID)).1.writes, ∀ t, w.body ≠ .str t) ∧
    ¬ (getSecret st fGet fUpd B (some s.ID)).1.writesContent s ∧
    ¬ (getSecret st fGet fUpd B (some s.ID)).1.writesSentinel ∧
    ¬ (getSecret st fGet fUpd B (some s.ID)).1.issuesUpdate ∧
    (getSecret st fGet fUpd B (some s.ID)).1.panicked = none ∧
    (getSecret st fGet fUpd B (some s.ID)).2 = st := by
  cases fGet with
  | none =>
    have e : getSecret st none fUpd B (some s.ID) =
        ({ writes := [⟨StatusUnauthorized,
              .errorResponse "account doesn\x27t belong to the authenticated user"⟩],
           calls := [.get s.ID], panicked := none }, st) := by
      simp [getSecret, ShouldBindUri_ok s.ID h1 h2, hget, hne]
    rw [e]
    simp [Outcome.writesContent, Outcome.writesSentinel, Outcome.issuesUpdate,
      StatusUnauthorized]
  | some err =>
    by_cases hn : err = StoreErr.ErrNoRows
    · have e : getSecret st (some err) fUpd B (some s.ID) =
          ({ writes := [⟨StatusNotFound, .errorResponse err.Error⟩],
             calls := [.get s.ID], panicked := none }, st) := by
        simp [getSecret, ShouldBindUri_ok s.ID h1 h2, Store.GetSecret, hn]
      rw [e]
      simp [Outcome.writesContent, Outcome.writesSentinel, Outcome.issuesUpdate]
    · have e : getSecret st (some err) fUpd B (some s.ID) =
          ({ writes := [⟨StatusInternalServerError, .errorResponse err.Error⟩],
             calls := [.get s.ID], panicked := none }, st) := by
        simp [getSecret, ShouldBindUri_ok s.ID h1 h2, Store.GetSecret, hn]
      rw [e]
      simp [Outcome.writesContent, Outcome.writesSentinel, Outcome.issuesUpdate]

/-- C2 at the sample store: `bob` asks for the secret of `alice`. -/
theorem C2_ownership_isolation_witness :
    ((none : Option StoreErr) = none →
      (getSecret sampleStore none none ⟨"bob"⟩ (some sampleSecret.ID)).1.writes =
        [⟨401, .errorResponse "account doesn\x27t belong to the authenticated user"⟩]) ∧
    (∀ w ∈ (getSecret sampleStore none none ⟨"bob"⟩ (some sampleSecret.ID)).1.writes,
      ∀ t, w.body ≠ .str t) ∧
    ¬ (getSecret sampleStore none none ⟨"bob"⟩ (some sampleSecret.ID)).1.writesContent
        sampleSecret ∧
    ¬ (getSecret sampleStore none none ⟨"bob"⟩ (some sampleSecret.ID)).1.writesSentinel ∧
    ¬ (getSecret sampleStore none none ⟨"bob"⟩ (some sampleSecret.ID)).1.issuesUpdate ∧
    (getSecret sampleStore none none ⟨"bob"⟩ (some sampleSecret.ID)).1.panicked = none ∧
    (getSecret sampleStore none none ⟨"bob"⟩ (some sampleSecret.ID)).2 = sampleStore :=
  C2_ownership_isolation sampleStore sampleSecret ⟨"bob"⟩ none none (by decide) (by decide)
    rfl (by decide)

/-! ## C3: disclosure when `UpdateSecret` fails -/

/-- C3: at the sample store, a retrieval whose `UpdateSecret` call fails writes the
content and leaves the secret stored unviewed, and the next retrieval writes the content
again: two of two calls disclose it, on the anonymous path and on the owner path. -/
theorem C3_content_disclosed_twice :
    ((runRetrievals sampleStore (some 1)
        [.anon none (some (.other "update failed")), .anon none none]).1.filter
      (fun o => decide (o.writesContent sampleSecret))).length = 2 ∧
    (retrieve sampleStore (some 1) (.anon none (some (.other "update failed")))).1.writesContent
      sampleSecret ∧
    (retrieve sampleStore (some 1) (.anon none (some (.other "update failed")))).2.GetSecret
      none 1 = .ok sampleSecret ∧
    sampleSecret.Isview = false ∧
    ((runRetrievals sampleStore (some 1)
        [.owner none (some (.other "update failed")) ⟨"alice"⟩,
         .owner none none ⟨"alice"⟩]).1.filter
      (fun o => decide (o.writesContent sampleSecret))).length = 2 := by
  refine ⟨by decide, by decide, rfl, rfl, by decide⟩

/-! ## C4: concurrent retrievals -/

/-- Running the two steps of a request back to back is the handler `getOneTimeSecret`
without storage faults. -/
theorem stepOneTimeSecret_twice (st : Store) (id : Option Int) :
    stepOneTimeSecret (stepOneTimeSecret st id .start).2 id (stepOneTimeSecret st id .start).1 =
      (.returned (getOneTimeSecret st none none id).1, (getOneTimeSecret st none none id).2) := by
  cases hb : ShouldBindUri id with
  | error e =>
    have a : stepOneTimeSecret st id .start =
        (.returned { writes := [⟨StatusBadRequest, .errorResponse e⟩], calls := [],
                     panicked := none }, st) := by
      simp [stepOneTimeSecret, hb]
    rw [a]
    simp [stepOneTimeSecret, getOneTimeSecret, hb]
  | ok req =>
    cases hg : st.GetSecret none req.ID with
    | error err =>
      by_cases hn : err = StoreErr.ErrNoRows
      · have a : stepOneTimeSecret st id .start =
            (.returned { writes := [⟨StatusNotFound, .errorResponse err.Error⟩],
                         calls := [.get req.ID], panicked := none }, st) := by
          simp [stepOneTimeSecret, hb, hg, hn]
        rw [a]
        simp [stepOneTimeSecret, getOneTimeSecret, hb, hg, hn]
      · have a : stepOneTimeSecret st id .start =
            (.returned { writes := [⟨StatusInternalServerError, .errorResponse err.Error⟩],
                         calls := [.get req.ID], panicked := none }, st) := by
          simp [stepOneTimeSecret, hb, hg, hn]
        rw [a]
        simp [stepOneTimeSecret, getOneTimeSecret, hb, hg, hn]
    | ok secret =>
      cases hv : secret.Isview with
      | true =>
        have a : stepOneTimeSecret st id .start =
            (.returned { writes := [⟨StatusOK, .str alreadyView⟩],
                         calls := [.get req.ID], panicked := none }, st) := by
          simp [stepOneTimeSecret, hb, hg, hv]
        rw [a]
        simp [stepOneTimeSecret, getOneTimeSecret, hb, hg, hv]
      | false =>
        have a : stepOneTimeSecret st id .start =
            (.beforeUpdate { writes := [⟨StatusOK, .str secret.Content⟩],
                             calls := [.get req.ID], panicked := none }
              { ID := req.ID, Isview := true }, st) := by
          simp [stepOneTimeSecret, hb, hg, hv]
        rw [a]
        cases hu : st.UpdateSecret none { ID := req.ID, Isview := true } with
        | error err => simp [stepOneTimeSecret, getOneTimeSecret, hb, hg, hv, hu]
        | ok r => simp [stepOneTimeSecret, getOneTimeSecret, hb, hg, hv, hu]

/-- C4: two concurrent `getOneTimeSecret` requests for the unviewed sample secret, both
reading before either updates (schedule `0, 1, 0, 1`): both return having written the
content and neither writes the sentinel, so the number of requests observing the content
is 2 and not 1. -/
theorem C4_two_concurrent_disclosures :
    (runSchedule (some 1) [0, 1, 0, 1] ([.start, .start], sampleStore)).1.map
        (Pc.observesContent sampleSecret) = [true, true] ∧
    (runSchedule (some 1) [0, 1, 0, 1] ([.start, .start], sampleStore)).1.map
        Pc.observesAlreadyViewed = [false, false] ∧
    ((runSchedule (some 1) [0, 1, 0, 1] ([.start, .start], sampleStore)).1.filter
        (Pc.observesContent sampleSecret)).length = 2 := by
  refine ⟨by decide, by decide, by decide⟩

/-! ## C5: the address of an anonymous secret -/

/-- C5: a successful `createOneTimeSecret` call with base URL `http://h`, in a run where
`util.GetToken()` returns `TOKENTOKEN` and `util.RandomString(60)` returns
`RANDOMRANDOM`: the record is stored with id 1 and Token `TOKENTOKEN`, while the returned
url ends in `RANDOMRANDOM` and is not the address built from the stored token. -/
theorem C5_url_carries_other_token :
    (createOneTimeSecret (sampleEnv "http://h") emptyStore "" none
        (some ⟨"x", ""⟩)).1.writes =
      [⟨200, .url "http://h/one-time-secret/1/RANDOMRANDOM"⟩] ∧
    (createOneTimeSecret (sampleEnv "http://h") emptyStore "" none
        (some ⟨"x", ""⟩)).2.1.rows =
      [{ ID := 1, Content := "x", Creator := "", Hashpassword := "", Isview := false,
         Token := "TOKENTOKEN" }] ∧
    (createOneTimeSecret (sampleEnv "http://h") emptyStore "" none
        (some ⟨"x", ""⟩)).1.writes ≠
      [⟨200, .url "http://h/one-time-secret/1/TOKENTOKEN"⟩] := by
  refine ⟨by decide, by decide, by decide⟩

/-! ## C6: passphrase storage -/

theorem utf8ByteSize_eq_zero_iff (s : String) : s.utf8ByteSize = 0 ↔ s = "" := by
  cases s with
  | mk cs =>
    cases cs with
    | nil => simp [String.utf8ByteSize, String.utf8ByteSize.go]
    | cons c cs =>
      have hc := Char.utf8Size_pos c
      have hne : (String.mk (c :: cs)) ≠ "" := by
        intro h
        have := congrArg String.data h
        simp at this
      simp only [String.utf8ByteSize, String.utf8ByteSize.go, hne, iff_false]
      omega

theorem oneTimeArgs_Hashpassword (env : Env) (req : createSecretRequest) :
    (oneTimeArgs env req).Hashpassword =
      if req.Hashpassword = "" then "" else (env.HashPassword req.Hashpassword).1 := by
  unfold oneTimeArgs
  by_cases h : req.Hashpassword = ""
  · simp [h, (utf8ByteSize_eq_zero_iff "").2 rfl]
  · have h0 : ¬ req.Hashpassword.utf8ByteSize = 0 :=
      fun e => h ((utf8ByteSize_eq_zero_iff _).1 e)
    simp [h, h0]

theorem ownedArgs_Hashpassword (env : Env) (authPayload : Payload) (req : createSecretRequest) :
    (ownedArgs env authPayload req).Hashpassword =
      if req.Hashpassword = "" then "" else (env.HashPassword req.Hashpassword).1 := by
  unfold ownedArgs
  by_cases h : req.Hashpassword = ""
  · simp [h, (utf8ByteSize_eq_zero_iff "").2 rfl]
  · have h0 : ¬ req.Hashpassword.utf8ByteSize = 0 :=
      fun e => h ((utf8ByteSize_eq_zero_iff _).1 e)
    simp [h, h0]

theorem createOneTimeSecret_calls (env : Env) (st : Store) (Cont : String)
    (fCreate : Option StoreErr) (req : createSecretRequest) (hreq : req.Content ≠ "") :
    (createOneTimeSecret env st Cont fCreate (some req)).1.calls =
      [.create (oneTimeArgs env req)] := by
  unfold createOneTimeSecret
  cases fCreate with
  | some e => simp [ShouldBindJSON, hreq, Store.CreateSecret]
  | none =>
    by_cases hb : env.BASE_URL = "" <;> simp [ShouldBindJSON, hreq, Store.CreateSecret, hb]

theorem createSecret_calls (env : Env) (st : Store) (Cont : String)
    (fCreate : Option StoreErr) (authPayload : Payload) (req : createSecretRequest)
    (hreq : req.Content ≠ "") :
    (createSecret env st Cont fCreate authPayload (some req)).1.calls =
      [.create (ownedArgs env authPayload req)] := by
  unfold createSecret
  cases fCreate with
  | some e => simp [ShouldBindJSON, hreq, Store.CreateSecret]
  | none => simp [ShouldBindJSON, hreq, Store.CreateSecret]

/-- C6: a request with the non-empty 73-byte passphrase `longPassphrase`, in a run where
`util.HashPassword` returns the pair of an empty hash and an error for it: both
`createOneTimeSecret` and `createSecret` discard the error, call `CreateSecret` with an
empty Hashpassword, store the record with an empty credential and answer `200`. -/
theorem C6_hash_error_discarded :
    longPassphrase ≠ "" ∧
    failingEnv.HashPassword longPassphrase = ("", some "password length exceeds 72 bytes") ∧
    (createOneTimeSecret failingEnv emptyStore "" none
        (some ⟨"x", longPassphrase⟩)).1.calls =
      [.create { Content := "x", Creator := "", Hashpassword := "", Token := "TOKENTOKEN" }] ∧
    (createOneTimeSecret failingEnv emptyStore "" none
        (some ⟨"x", longPassphrase⟩)).1.writes =
      [⟨200, .url "http://h/one-time-secret/1/RANDOMRANDOM"⟩] ∧
    (createOneTimeSecret failingEnv emptyStore "" none
        (some ⟨"x", longPassphrase⟩)).2.1.rows.map Secret.Hashpassword = [""] ∧
    (createSecret failingEnv emptyStore "" none ⟨"alice"⟩
        (some ⟨"x", longPassphrase⟩)).1.calls =
      [.create { Content := "x", Creator := "alice", Hashpassword := "", Token := "" }] ∧
    (createSecret failingEnv emptyStore "" none ⟨"alice"⟩
        (some ⟨"x", longPassphrase⟩)).1.writes =
      [⟨200, .str "localhost:3000/secrets/1/RANDOMRANDOM"⟩] ∧
    (createSecret failingEnv emptyStore "" none ⟨"alice"⟩
        (some ⟨"x", longPassphrase⟩)).2.1.rows.map Secret.Hashpassword = [""] := by
  refine ⟨by decide, by decide, by decide, by decide, by decide, by decide, by decide,
    by decide⟩

/-! ## C7: missing base URL -/

/-- C7: a valid `createOneTimeSecret` request while the base URL is empty, on the empty
store: the call writes `422` with the error `required baseURL` and no url, after it has
called `CreateSecret`; the store is not left unchanged, it holds the new record. -/
theorem C7_row_written_before_config_check :
    (createOneTimeSecret (sampleEnv "") emptyStore "" none (some ⟨"x", ""⟩)).1.writes =
      [⟨422, .errorResponse "required baseURL"⟩] ∧
    (createOneTimeSecret (sampleEnv "") emptyStore "" none (some ⟨"x", ""⟩)).1.calls =
      [.create { Content := "x", Creator := "", Hashpassword := "", Token := "TOKENTOKEN" }] ∧
    (createOneTimeSecret (sampleEnv "") emptyStore "" none (some ⟨"x", ""⟩)).2.1 ≠
      emptyStore ∧
    (createOneTimeSecret (sampleEnv "") emptyStore "" none (some ⟨"x", ""⟩)).2.1.rows =
      [{ ID := 1, Content := "x", Creator := "", Hashpassword := "", Isview := false,
         Token := "TOKENTOKEN" }] := by
  refine ⟨by decide, by decide, by decide, by decide⟩

/-! ## C8: the pagination window -/

/-- C9: the owner `alice` retrieves the unviewed sample secret and `UpdateSecret` fails:
`getSecret` ends in `panic(err)` and its only write is the `200` with the content, no
server-error response; `getOneTimeSecret` at the same failure does not panic and writes a
`500` error after the content. -/
theorem C9_getSecret_panics_on_update_failure :
    (getSecret sampleStore none (some (.other "update failed")) ⟨"alice"⟩ (some 1)).1.panicked =
      some (.other "update failed") ∧
    (getSecret sampleStore none (some (.other "update failed")) ⟨"alice"⟩ (some 1)).1.writes =
      [⟨200, .str "s3cr3t"⟩] ∧
    (getOneTimeSecret sampleStore none (some (.other "update failed")) (some 1)).1.panicked =
      none ∧
    (getOneTimeSecret sampleStore none (some (.other "update failed")) (some 1)).1.writes =
      [⟨200, .str "s3cr3t"⟩, ⟨500, .errorResponse "update failed"⟩] := by
  refine ⟨by decide, by decide, by decide, by decide⟩

/-! ## C10: the anonymous path does not look at creator or token -/

theorem ShouldBindUri_some_cases (n : Int) :
    ShouldBindUri (some n) = .ok { ID := n, Isview := false } ∨
      ∃ e, ShouldBindUri (some n) = .error e := by
  unfold ShouldBindUri
  simp only
  split_ifs <;> simp

theorem UpdateSecret_none_ok (st : Store) (i : Int) (v : Bool) (s : Secret)
    (hget : st.GetSecret none i = .ok s) :
    st.UpdateSecret none { ID := i, Isview := v } =
      .ok ({ s with Isview := v }, { st with rows := setView i v st.rows }) := by
  have hf := (GetSecret_ok_iff st i s).1 hget
  simp [Store.UpdateSecret, hf]

/-- C10: for two stores in which the id `i` names secrets `s1` and `s2` that agree on
content and viewed (and, being stored under `i`, on id) but may differ in creator,
credential and token, `getOneTimeSecret` does the same writes and the same store calls and
panics in neither, under the same storage faults, and applies the same update to either
store; and for such a secret with `viewed = false`, whoever its creator is, the fault-free
call writes `200` with the content and leaves it stored as viewed, no caller identity
being an input of the handler. -/
theorem C10_anonymous_path_ignores_owner (st1 st2 : Store) (s1 s2 : Secret) (i : Int)
    (fGet fUpd : Option StoreErr)
    (hg1 : st1.GetSecret none i = .ok s1) (hg2 : st2.GetSecret none i = .ok s2)
    (hc : s1.Content = s2.Content) (hv : s1.Isview = s2.Isview) :
    (getOneTimeSecret st1 fGet fUpd (some i)).1 = (getOneTimeSecret st2 fGet fUpd (some i)).1 ∧
    (∃ b : Bool,
      (getOneTimeSecret st1 fGet fUpd (some i)).2 =
        (if b then { st1 with rows := setView i true st1.rows } else st1) ∧
      (getOneTimeSecret st2 fGet fUpd (some i)).2 =
        (if b then { st2 with rows := setView i true st2.rows } else st2)) ∧
    (1 ≤ i → i < 2 ^ 63 → s1.Isview = false →
      (getOneTimeSecret st1 none none (some i)).1.writes = [⟨200, .str s1.Content⟩] ∧
      (getOneTimeSecret st1 none none (some i)).2.GetSecret none i =
        .ok { s1 with Isview := true }) := by
  refine ⟨?_, ?_, ?_⟩
  · rcases ShouldBindUri_some_cases i with hb | ⟨e, hb⟩
    · cases fGet with
      | some err =>
        by_cases hn : err = StoreErr.ErrNoRows <;>
          simp [getOneTimeSecret, hb, Store.GetSecret, hn]
      | none =>
        cases hv1 : s1.Isview with
        | true =>
          have hv2 : s2.Isview = true := by rw [← hv, hv1]
          simp [getOneTimeSecret, hb, hg1, hg2, hv1, hv2]
        | false =>
          have hv2 : s2.Isview = false := by rw [← hv, hv1]
          cases fUpd with
          | some err =>
            simp [getOneTimeSecret, hb, hg1, hg2, hv1, hv2, hc, Store.UpdateSecret]
          | none =>
            simp [getOneTimeSecret, hb, hg1, hg2, hv1, hv2, hc,
              UpdateSecret_none_ok st1 i true s1 hg1, UpdateSecret_none_ok st2 i true s2 hg2]
    · simp [getOneTimeSecret, hb]
  · rcases ShouldBindUri_some_cases i with hb | ⟨e, hb⟩
    · cases fGet with
      | some err =>
        refine ⟨false, ?_, ?_⟩ <;>
          by_cases hn : err = StoreErr.ErrNoRows <;>
          simp [getOneTimeSecret, hb, Store.GetSecret, hn]
      | none =>
        cases hv1 : s1.Isview with
        | true =>
          have hv2 : s2.Isview = true := by rw [← hv, hv1]
          refine ⟨false, ?_, ?_⟩
          · simp [getOneTimeSecret, hb, hg1, hv1]
          · simp [getOneTimeSecret, hb, hg2, hv2]
        | false =>
          have hv2 : s2.Isview = false := by rw [← hv, hv1]
          cases fUpd with
          | some err =>
            refine ⟨false, ?_, ?_⟩
            · simp [getOneTimeSecret, hb, hg1, hv1, Store.UpdateSecret]
            · simp [getOneTimeSecret, hb, hg2, hv2, Store.UpdateSecret]
          | none =>
            refine ⟨true, ?_, ?_⟩
            · simp [getOneTimeSecret, hb, hg1, hv1, UpdateSecret_none_ok st1 i true s1 hg1]
            · simp [getOneTimeSecret, hb, hg2, hv2, UpdateSecret_none_ok st2 i true s2 hg2]
    · refine ⟨false, ?_, ?_⟩ <;> simp [getOneTimeSecret, hb]
  · intro h1 h2 hview
    rw [getOneTimeSecret_unviewed st1 i s1 h1 h2 hg1 hview]
    exact ⟨rfl, GetSecret_setView st1 i true s1 hg1⟩

/-- C10 at the sample stores: the secret of `alice` and the one of `bob` under id 1. -/
theorem C10_anonymous_path_ignores_owner_witness :
    (getOneTimeSecret sampleStore none none (some 1)).1 =
      (getOneTimeSecret otherStore none none (some 1)).1 ∧
    (∃ b : Bool,
      (getOneTimeSecret sampleStore none none (some 1)).2 =
        (if b then { sampleStore with rows := setView 1 true sampleStore.rows }
         else sampleStore) ∧
      (getOneTimeSecret otherStore none none (some 1)).2 =
        (if b then { otherStore with rows := setView 1 true otherStore.rows }
         else otherStore)) ∧
    ((1 : Int) ≤ 1 → (1 : Int) < 2 ^ 63 → sampleSecret.Isview = false →
      (getOneTimeSecret sampleStore none none (some 1)).1.writes =
        [⟨200, .str sampleSecret.Content⟩] ∧
      (getOneTimeSecret sampleStore none none (some 1)).2.GetSecret none 1 =
        .ok { sampleSecret with Isview := true }) :=
  C10_anonymous_path_ignores_owner sampleStore otherStore sampleSecret otherSecret 1 none none
    rfl rfl rfl rfl

end OneTimeSecret
